import Mathlib

/-!
Verification of the versioned address decoder (`address.go` of
juju/description): shallow embedding of the data model, the per-version
decoding functions, the batch importer, and the direct constructor,
followed by theorems about their behaviour.
-/

namespace Description

/-- A raw untyped value of a parsed document (`interface\x7b\x7d` in the source):
a string, an integer, a string-keyed mapping, or anything else. -/
inductive RawValue where
  | str : String → RawValue
  | int : Int → RawValue
  | map : List (String × RawValue) → RawValue
  | other : RawValue

/-- A raw document: a string-keyed mapping (`map[string]interface\x7b\x7d`),
embedded as an association list where the first binding of a key wins. -/
abbrev RawDoc := List (String × RawValue)

/-- Key lookup in a raw mapping (Go map indexing). -/
def lookupRaw (source : RawDoc) (key : String) : Option RawValue :=
  match source with
  | [] => none
  | (k, v) :: rest => if k = key then some v else lookupRaw rest key

/-- The canonical record: struct `address` with its version stamp and six
string fields (Go zero value of a string is `""`). -/
structure address where
  Version : Int
  Value_ : String
  Type_ : String
  Scope_ : String
  Origin_ : String
  SpaceID_ : String
  CIDR_ : String
deriving DecidableEq, Repr

/-- Accessor `Value()`. -/
def address.Value (a : address) : String := a.Value_

/-- Accessor `Type()` (Lean reserves `Type`, hence the prime). -/
def address.Type' (a : address) : String := a.Type_

/-- Accessor `Scope()`. -/
def address.Scope (a : address) : String := a.Scope_

/-- Accessor `Origin()`. -/
def address.Origin (a : address) : String := a.Origin_

/-- Accessor `SpaceID()`. -/
def address.SpaceID (a : address) : String := a.SpaceID_

/-- Accessor `CIDR()`. -/
def address.CIDR (a : address) : String := a.CIDR_

/-- Argument struct `AddressArgs` (Lean reserves `Type`, hence the prime). -/
structure AddressArgs where
  Value : String
  Type' : String
  Scope : String
  Origin : String
  SpaceID : String
  CIDR : String
deriving DecidableEq, Repr

/-- `newAddress`: direct construction, always stamped with version 3. -/
def newAddress (args : AddressArgs) : address :=
  { Version := 3
  , Value_ := args.Value
  , Type_ := args.Type'
  , Scope_ := args.Scope
  , Origin_ := args.Origin
  , SpaceID_ := args.SpaceID
  , CIDR_ := args.CIDR }

/-- A version's field specification: the field names (all string-typed in this
file, `schema.String()`) and the defaults for the optional ones. -/
structure FieldSpecs where
  fields : List String
  defaults : List (String × String)

/-- `addressV1Fields`: required `value` and `type`; `scope` and `origin`
optional with empty-string defaults. -/
def addressV1Fields : FieldSpecs :=
  { fields := ["value", "type", "scope", "origin"]
  , defaults := [("scope", ""), ("origin", "")] }

/-- `addressV2Fields`: v1 plus optional `spaceid` defaulting to `""`. -/
def addressV2Fields : FieldSpecs :=
  { fields := addressV1Fields.fields ++ ["spaceid"]
  , defaults := addressV1Fields.defaults ++ [("spaceid", "")] }

/-- `addressV3Fields`: v2 plus optional `cidr` defaulting to `""`. -/
def addressV3Fields : FieldSpecs :=
  { fields := addressV2Fields.fields ++ ["cidr"]
  , defaults := addressV2Fields.defaults ++ [("cidr", "")] }

/-- Structural coercion failure of `schema.FieldMap(...).Coerce`: a required
field absent, or a present field not of the expected (string) type. -/
inductive CoerceError where
  | fieldMissing : String → CoerceError
  | fieldTypeError : String → CoerceError
deriving DecidableEq, Repr

/-- Lookup in a defaults table. -/
def lookupDefault (defaults : List (String × String)) (key : String) : Option String :=
  match defaults with
  | [] => none
  | (k, v) :: rest => if k = key then some v else lookupDefault rest key

/-- Modelled from the spec: one field of the Coercer (the external
`schema.FieldMap(...).Coerce`) — look the field up by name; if present it
must be a string, if absent substitute the default, and fail when a required
(no-default) field is absent. -/
def coerceField (source : RawDoc) (defaults : List (String × String))
    (name : String) : Except CoerceError String :=
  match lookupRaw source name with
  | some (RawValue.str s) => .ok s
  | some _ => .error (.fieldTypeError name)
  | none =>
      match lookupDefault defaults name with
      | some d => .ok d
      | none => .error (.fieldMissing name)

/-- Modelled from the spec: the Coercer over an ordered field list — coerce
each named field in order, failing on the first structural error; keys of the
source outside the field list are ignored. -/
def coerceFields (source : RawDoc) (defaults : List (String × String)) :
    List String → Except CoerceError (List (String × String))
  | [] => .ok []
  | name :: rest =>
      match coerceField source defaults name with
      | .error e => .error e
      | .ok s =>
          match coerceFields source defaults rest with
          | .error e => .error e
          | .ok tail => .ok ((name, s) :: tail)

/-- Modelled from the spec: `schema.FieldMap(fields, defaults).Coerce` — a
typed, fully defaulted mapping, or the first structural error. -/
def coerce (spec : FieldSpecs) (source : RawDoc) :
    Except CoerceError (List (String × String)) :=
  coerceFields source spec.defaults spec.fields

/-- Lookup in the coerced mapping (`valid["name"].(string)`); the coercion
guarantees every specified field is present, so the fallback is never hit on
the paths the import functions take. -/
def lookupStr (valid : List (String × String)) (key : String) : String :=
  match valid with
  | [] => ""
  | (k, v) :: rest => if k = key then v else lookupStr rest key

/-- The error outcomes of `importAddress`: the annotated version-tag
extraction failure, the not-valid error for an unregistered version, or a
schema check failure annotated with the attempted version. -/
inductive DecodeError where
  | versionSchemaCheckFailed : DecodeError
  | versionNotValid : Int → DecodeError
  | schemaCheckFailed : Int → CoerceError → DecodeError
deriving DecidableEq, Repr

/-- Modelled from the spec: the sibling collaborator `getVersion` (not in
this file) extracts the integer version tag from a document, surfacing an
opaque upstream error when the tag is absent or not an integer. -/
def getVersion (source : RawDoc) : Except Unit Int :=
  match lookupRaw source "version" with
  | some (RawValue.int n) => .ok n
  | _ => .error ()

/-- `importAddressV1`: coerce against the v1 spec, annotate failures with
"address v1 schema check failed", and stamp the record with version 1;
fields introduced after v1 take the Go zero value `""`. -/
def importAddressV1 (source : RawDoc) : Except DecodeError address :=
  match coerce addressV1Fields source with
  | .error e => .error (.schemaCheckFailed 1 e)
  | .ok valid =>
      .ok { Version := 1
          , Value_ := lookupStr valid "value"
          , Type_ := lookupStr valid "type"
          , Scope_ := lookupStr valid "scope"
          , Origin_ := lookupStr valid "origin"
          , SpaceID_ := ""
          , CIDR_ := "" }

/-- `importAddressV2`: as v1 with the v2 spec, stamping version 2 and also
reading `spaceid`; `cidr` takes the Go zero value `""`. -/
def importAddressV2 (source : RawDoc) : Except DecodeError address :=
  match coerce addressV2Fields source with
  | .error e => .error (.schemaCheckFailed 2 e)
  | .ok valid =>
      .ok { Version := 2
          , Value_ := lookupStr valid "value"
          , Type_ := lookupStr valid "type"
          , Scope_ := lookupStr valid "scope"
          , Origin_ := lookupStr valid "origin"
          , SpaceID_ := lookupStr valid "spaceid"
          , CIDR_ := "" }

/-- `importAddressV3`: as v2 with the v3 spec, stamping version 3 and also
reading `cidr`. -/
def importAddressV3 (source : RawDoc) : Except DecodeError address :=
  match coerce addressV3Fields source with
  | .error e => .error (.schemaCheckFailed 3 e)
  | .ok valid =>
      .ok { Version := 3
          , Value_ := lookupStr valid "value"
          , Type_ := lookupStr valid "type"
          , Scope_ := lookupStr valid "scope"
          , Origin_ := lookupStr valid "origin"
          , SpaceID_ := lookupStr valid "spaceid"
          , CIDR_ := lookupStr valid "cidr" }

/-- The registry `addressDeserializationFuncs`: versions 1, 2 and 3 map to
their import functions; anything else is unregistered. -/
def addressDeserializationFuncs (version : Int) :
    Option (RawDoc → Except DecodeError address) :=
  if version = 1 then some importAddressV1
  else if version = 2 then some importAddressV2
  else if version = 3 then some importAddressV3
  else none

/-- `importAddress`: resolve the version tag (annotating a failure), look the
version up in the registry (a missing entry is the not-valid error), then run
the registered import function. -/
def importAddress (source : RawDoc) : Except DecodeError address :=
  match getVersion source with
  | .error _ => .error .versionSchemaCheckFailed
  | .ok version =>
      match addressDeserializationFuncs version with
      | none => .error (.versionNotValid version)
      | some importFunc => importFunc source

/-- A batch error: `errors.Errorf("unexpected value for address %d, ...")`
embeds the element index in the message; `errors.Trace(err)` wraps the cause
without adding an index. -/
inductive BatchError where
  | unexpectedValue : Nat → BatchError
  | traced : DecodeError → BatchError
deriving DecidableEq, Repr

/-- The element index an error message embeds: only the
"unexpected value for address %d" error carries one. -/
def BatchError.indexTag : BatchError → Option Nat
  | .unexpectedValue i => some i
  | .traced _ => none

/-- The loop of `importAddresses`, carrying the index of the next element:
a non-mapping element yields the indexed error, a failed single decode is
traced, and both abort with no partial result. -/
def importAddressesFrom : Nat → List RawValue → Except BatchError (List address)
  | _, [] => .ok []
  | i, value :: rest =>
      match value with
      | RawValue.map source =>
          match importAddress source with
          | .error err => .error (.traced err)
          | .ok addr =>
              match importAddressesFrom (i + 1) rest with
              | .error e => .error e
              | .ok tail => .ok (addr :: tail)
      | _ => .error (.unexpectedValue i)

/-- `importAddresses`: decode a list of raw values in order, starting the
index at 0. -/
def importAddresses (sourceList : List RawValue) :
    Except BatchError (List address) :=
  importAddressesFrom 0 sourceList

/-- Elementwise decode outcome of one batch element: a mapping decodes
through `importAddress`; anything else never yields a record. -/
def importOne : RawValue → Option address
  | RawValue.map m => (importAddress m).toOption
  | _ => none

/-- The field names of the specification a given version tag dispatches to:
the layered field lists of versions 1, 2 and 3, and nothing elsewhere. -/
def fieldsForVersion (version : Int) : List String :=
  if version = 1 then addressV1Fields.fields
  else if version = 2 then addressV2Fields.fields
  else if version = 3 then addressV3Fields.fields
  else []

/-! ## Theorems -/

/-- C2: for every supported version V in \x7b1, 2, 3\x7d, a document whose
version tag is V and that contains exactly the required fields `value` and
`type` decodes successfully to a record stamped with version V whose fields
beyond those two — in particular every field introduced after V — equal the
empty string. -/
theorem importAddress_minimal_fields (V : Int) (hV : V = 1 ∨ V = 2 ∨ V = 3)
    (v t : String) :
    importAddress [("version", RawValue.int V), ("value", RawValue.str v),
        ("type", RawValue.str t)]
      = .ok { Version := V, Value_ := v, Type_ := t, Scope_ := ""
            , Origin_ := "", SpaceID_ := "", CIDR_ := "" } := by
  rcases hV with h | h | h <;> subst h <;> rfl

/-- Witness for C2 at version 2 with concrete field values. -/
theorem importAddress_minimal_fields_witness :
    importAddress [("version", RawValue.int 2), ("value", RawValue.str "10.0.0.1"),
        ("type", RawValue.str "ipv4")]
      = .ok { Version := 2, Value_ := "10.0.0.1", Type_ := "ipv4", Scope_ := ""
            , Origin_ := "", SpaceID_ := "", CIDR_ := "" } :=
  importAddress_minimal_fields 2 (Or.inr (Or.inl rfl)) "10.0.0.1" "ipv4"

/-- C3: `newAddress` always succeeds (it is total) and stamps every record
with version 3, whatever the arguments; when the optional arguments (Scope,
Origin, SpaceID, CIDR) are omitted (Go zero value `""`), the corresponding
record fields are the empty string. -/
theorem newAddress_latest_version (args : AddressArgs) (v t : String) :
    (newAddress args).Version = 3 ∧
    newAddress (AddressArgs.mk v t "" "" "" "")
      = address.mk 3 v t "" "" "" "" :=
  ⟨rfl, rfl⟩

/-- C4: a document whose version tag is an integer with no registered import
function (anything outside \x7b1, 2, 3\x7d) fails with exactly the not-valid
error naming that version, and with no other error. -/
theorem importAddress_unsupported_version (source : RawDoc) (n : Int)
    (hv : lookupRaw source "version" = some (RawValue.int n))
    (h1 : n ≠ 1) (h2 : n ≠ 2) (h3 : n ≠ 3) :
    importAddress source = .error (.versionNotValid n) := by
  simp [importAddress, getVersion, hv, addressDeserializationFuncs, h1, h2, h3]

/-- Witness for C4: version 99. -/
theorem importAddress_unsupported_version_witness :
    importAddress [("version", RawValue.int 99)]
      = .error (.versionNotValid 99) :=
  importAddress_unsupported_version [("version", RawValue.int 99)] 99 rfl
    (by decide) (by decide) (by decide)

/-- C5: a version-1 document lacking the required `value` field always fails
with the field-missing error for `value`, annotated with version 1, and with
no other outcome. -/
theorem importAddress_v1_missing_value (source : RawDoc)
    (hver : lookupRaw source "version" = some (RawValue.int 1))
    (hmiss : lookupRaw source "value" = none) :
    importAddress source
      = .error (.schemaCheckFailed 1 (.fieldMissing "value")) := by
  simp [importAddress, getVersion, hver, addressDeserializationFuncs,
    importAddressV1, coerce, addressV1Fields, coerceFields, coerceField,
    hmiss, lookupDefault]

/-- Witness for C5: a version-1 document with `type` but no `value`. -/
theorem importAddress_v1_missing_value_witness :
    importAddress [("version", RawValue.int 1), ("type", RawValue.str "ipv4")]
      = .error (.schemaCheckFailed 1 (.fieldMissing "value")) :=
  importAddress_v1_missing_value
    [("version", RawValue.int 1), ("type", RawValue.str "ipv4")] rfl rfl

/-- C6: a version-3 document whose `value`, `type`, `scope`, `origin`,
`spaceid` and `cidr` entries are all present string values decodes
successfully, and the six accessors of the result return exactly those six
input values, unmodified. -/
theorem importAddress_v3_full (source : RawDoc) (v t s o sp c : String)
    (hver : lookupRaw source "version" = some (RawValue.int 3))
    (hv : lookupRaw source "value" = some (RawValue.str v))
    (ht : lookupRaw source "type" = some (RawValue.str t))
    (hs : lookupRaw source "scope" = some (RawValue.str s))
    (ho : lookupRaw source "origin" = some (RawValue.str o))
    (hsp : lookupRaw source "spaceid" = some (RawValue.str sp))
    (hc : lookupRaw source "cidr" = some (RawValue.str c)) :
    importAddress source = .ok (address.mk 3 v t s o sp c) ∧
    (address.mk 3 v t s o sp c).Value = v ∧
    (address.mk 3 v t s o sp c).Type' = t ∧
    (address.mk 3 v t s o sp c).Scope = s ∧
    (address.mk 3 v t s o sp c).Origin = o ∧
    (address.mk 3 v t s o sp c).SpaceID = sp ∧
    (address.mk 3 v t s o sp c).CIDR = c := by
  refine ⟨?_, rfl, rfl, rfl, rfl, rfl, rfl⟩
  simp [importAddress, getVersion, hver, addressDeserializationFuncs,
    importAddressV3, coerce, addressV3Fields, addressV2Fields,
    addressV1Fields, coerceFields, coerceField, hv, ht, hs, ho, hsp, hc,
    lookupStr]

/-- Witness for C6 at concrete field values. -/
theorem importAddress_v3_full_witness :
    importAddress [("version", RawValue.int 3), ("value", RawValue.str "fe80::1"),
        ("type", RawValue.str "ipv6"), ("scope", RawValue.str "local"),
        ("origin", RawValue.str "machine"), ("spaceid", RawValue.str "7"),
        ("cidr", RawValue.str "fe80::/64")]
      = .ok (address.mk 3 "fe80::1" "ipv6" "local" "machine" "7" "fe80::/64") ∧
    (address.mk 3 "fe80::1" "ipv6" "local" "machine" "7" "fe80::/64").Value = "fe80::1" ∧
    (address.mk 3 "fe80::1" "ipv6" "local" "machine" "7" "fe80::/64").Type' = "ipv6" ∧
    (address.mk 3 "fe80::1" "ipv6" "local" "machine" "7" "fe80::/64").Scope = "local" ∧
    (address.mk 3 "fe80::1" "ipv6" "local" "machine" "7" "fe80::/64").Origin = "machine" ∧
    (address.mk 3 "fe80::1" "ipv6" "local" "machine" "7" "fe80::/64").SpaceID = "7" ∧
    (address.mk 3 "fe80::1" "ipv6" "local" "machine" "7" "fe80::/64").CIDR = "fe80::/64" :=
  importAddress_v3_full _ "fe80::1" "ipv6" "local" "machine" "7" "fe80::/64"
    rfl rfl rfl rfl rfl rfl rfl

/-- C8: decoding is deterministic — two runs of `importAddress` on the same
document that both succeed yield records that agree on every accessor (and,
the function being a pure function of the document, the outcomes of any two
runs coincide). -/
theorem importAddress_deterministic (source : RawDoc) (a b : address)
    (ha : importAddress source = .ok a) (hb : importAddress source = .ok b) :
    a.Version = b.Version ∧ a.Value = b.Value ∧ a.Type' = b.Type' ∧
    a.Scope = b.Scope ∧ a.Origin = b.Origin ∧ a.SpaceID = b.SpaceID ∧
    a.CIDR = b.CIDR := by
  rw [ha] at hb
  cases hb
  exact ⟨rfl, rfl, rfl, rfl, rfl, rfl, rfl⟩

/-- Witness for C8 at a concrete version-1 document. -/
theorem importAddress_deterministic_witness :
    (address.mk 1 "x" "t" "" "" "" "").Version
        = (address.mk 1 "x" "t" "" "" "" "").Version ∧
    (address.mk 1 "x" "t" "" "" "" "").Value
        = (address.mk 1 "x" "t" "" "" "" "").Value ∧
    (address.mk 1 "x" "t" "" "" "" "").Type'
        = (address.mk 1 "x" "t" "" "" "" "").Type' ∧
    (address.mk 1 "x" "t" "" "" "" "").Scope
        = (address.mk 1 "x" "t" "" "" "" "").Scope ∧
    (address.mk 1 "x" "t" "" "" "" "").Origin
        = (address.mk 1 "x" "t" "" "" "" "").Origin ∧
    (address.mk 1 "x" "t" "" "" "" "").SpaceID
        = (address.mk 1 "x" "t" "" "" "" "").SpaceID ∧
    (address.mk 1 "x" "t" "" "" "" "").CIDR
        = (address.mk 1 "x" "t" "" "" "" "").CIDR :=
  importAddress_deterministic
    [("version", RawValue.int 1), ("value", RawValue.str "x"),
      ("type", RawValue.str "t")]
    (address.mk 1 "x" "t" "" "" "" "") (address.mk 1 "x" "t" "" "" "" "")
    rfl rfl

/-- A successful run of the batch loop decodes every element in place,
whatever the running index. -/
lemma importAddressesFrom_ok (j : Nat) (docs : List RawValue)
    (result : List address) (i : Nat)
    (h : importAddressesFrom j docs = .ok result) :
    result.length = docs.length ∧ docs[i]?.bind importOne = result[i]? := by
  induction docs generalizing j result i with
  | nil =>
      simp only [importAddressesFrom] at h
      cases h
      simp
  | cons v rest ih =>
      cases v with
      | map m =>
          simp only [importAddressesFrom] at h
          cases him : importAddress m with
          | error e => rw [him] at h; cases h
          | ok a =>
              rw [him] at h
              cases hrest : importAddressesFrom (j + 1) rest with
              | error e => rw [hrest] at h; cases h
              | ok tail =>
                  rw [hrest] at h
                  cases h
                  have hih := ih (j + 1) tail (i - 1) hrest
                  cases i with
                  | zero => simp [importOne, him, hih.1, Except.toOption]
                  | succ i' =>
                      refine ⟨by simp [hih.1], ?_⟩
                      simpa using (ih (j + 1) tail i' hrest).2
      | str s => simp [importAddressesFrom] at h
      | int n => simp [importAddressesFrom] at h
      | other => simp [importAddressesFrom] at h

/-- C9: when `importAddresses` succeeds, the output list has the same length
as the input and is elementwise the decode of the input in the same order;
the empty input yields the empty output with no error. -/
theorem importAddresses_success_order (docs : List RawValue)
    (result : List address) (i : Nat)
    (h : importAddresses docs = .ok result) :
    result.length = docs.length ∧ docs[i]?.bind importOne = result[i]? ∧
    importAddresses [] = .ok ([] : List address) := by
  have hfrom := importAddressesFrom_ok 0 docs result i h
  exact ⟨hfrom.1, hfrom.2, rfl⟩

/-- Witness for C9 on a singleton batch, inspected at position 0. -/
theorem importAddresses_success_order_witness :
    ([address.mk 1 "x" "t" "" "" "" ""] : List address).length
        = ([RawValue.map [("version", RawValue.int 1),
            ("value", RawValue.str "x"), ("type", RawValue.str "t")]]
            : List RawValue).length ∧
    ([RawValue.map [("version", RawValue.int 1), ("value", RawValue.str "x"),
        ("type", RawValue.str "t")]] : List RawValue)[0]?.bind importOne
        = ([address.mk 1 "x" "t" "" "" "" ""] : List address)[0]? ∧
    importAddresses [] = .ok ([] : List address) :=
  importAddresses_success_order
    [RawValue.map [("version", RawValue.int 1), ("value", RawValue.str "x"),
      ("type", RawValue.str "t")]]
    [address.mk 1 "x" "t" "" "" "" ""] 0 rfl

/-- A key found in a mapping is still found, unchanged, after a binding is
appended at the end. -/
lemma lookupRaw_append_of_some (source : RawDoc) (k : String) (w : RawValue)
    (name : String) (v : RawValue) (h : lookupRaw source name = some v) :
    lookupRaw (source ++ [(k, w)]) name = some v := by
  induction source with
  | nil => simp [lookupRaw] at h
  | cons p rest ih =>
      obtain ⟨pk, pv⟩ := p
      by_cases hpk : pk = name
      · simp only [List.cons_append, lookupRaw, if_pos hpk] at h ⊢
        exact h
      · simp only [List.cons_append, lookupRaw, if_neg hpk] at h ⊢
        exact ih h

/-- Looking up a key other than the appended one is unchanged by the
append. -/
lemma lookupRaw_append_of_ne (source : RawDoc) (k : String) (w : RawValue)
    (name : String) (hne : name ≠ k) :
    lookupRaw (source ++ [(k, w)]) name = lookupRaw source name := by
  induction source with
  | nil => simp [lookupRaw, Ne.symm hne]
  | cons p rest ih =>
      obtain ⟨pk, pv⟩ := p
      by_cases hpk : pk = name
      · simp only [List.cons_append, lookupRaw, if_pos hpk]
      · simp only [List.cons_append, lookupRaw, if_neg hpk]
        exact ih

/-- Coercing a field named differently from an appended key is unchanged by
the append. -/
lemma coerceField_append (source : RawDoc) (defaults : List (String × String))
    (k : String) (w : RawValue) (name : String) (hne : name ≠ k) :
    coerceField (source ++ [(k, w)]) defaults name
      = coerceField source defaults name := by
  unfold coerceField
  rw [lookupRaw_append_of_ne source k w name hne]

/-- Coercion over a field list none of whose names is the appended key is
unchanged by the append. -/
lemma coerceFields_append (source : RawDoc) (defaults : List (String × String))
    (names : List String) (k : String) (w : RawValue)
    (hk : ∀ n ∈ names, n ≠ k) :
    coerceFields (source ++ [(k, w)]) defaults names
      = coerceFields source defaults names := by
  induction names with
  | nil => rfl
  | cons n rest ih =>
      simp only [coerceFields]
      rw [coerceField_append source defaults k w n (hk n (List.mem_cons_self n rest)),
        ih (fun m hm => hk m (List.mem_cons_of_mem n hm))]

/-- `importAddressV1` stamps version 1. -/
lemma importAddressV1_version (source : RawDoc) (a : address)
    (h : importAddressV1 source = .ok a) : a.Version = 1 := by
  unfold importAddressV1 at h
  cases hc : coerce addressV1Fields source with
  | error e => rw [hc] at h; cases h
  | ok valid => rw [hc] at h; cases h; rfl

/-- `importAddressV2` stamps version 2. -/
lemma importAddressV2_version (source : RawDoc) (a : address)
    (h : importAddressV2 source = .ok a) : a.Version = 2 := by
  unfold importAddressV2 at h
  cases hc : coerce addressV2Fields source with
  | error e => rw [hc] at h; cases h
  | ok valid => rw [hc] at h; cases h; rfl

/-- `importAddressV3` stamps version 3. -/
lemma importAddressV3_version (source : RawDoc) (a : address)
    (h : importAddressV3 source = .ok a) : a.Version = 3 := by
  unfold importAddressV3 at h
  cases hc : coerce addressV3Fields source with
  | error e => rw [hc] at h; cases h
  | ok valid => rw [hc] at h; cases h; rfl

/-- A successful version-tag extraction inverts to the mapping holding the
integer tag under `"version"`. -/
lemma getVersion_ok (source : RawDoc) (n : Int)
    (h : getVersion source = .ok n) :
    lookupRaw source "version" = some (RawValue.int n) := by
  unfold getVersion at h
  cases hl : lookupRaw source "version" with
  | none => rw [hl] at h; cases h
  | some v =>
      rw [hl] at h
      cases v with
      | int m => cases h; rfl
      | str s => cases h
      | map l => cases h
      | other => cases h

/-- Evaluation of `importAddress` when the version resolves to a registered
decoding function: the dispatch runs that function on the document. -/
lemma importAddress_dispatch (source : RawDoc) (V : Int)
    (f : RawDoc → Except DecodeError address)
    (hgv : getVersion source = .ok V)
    (hreg : addressDeserializationFuncs V = some f) :
    importAddress source = f source := by
  unfold importAddress
  rw [hgv]
  show (match addressDeserializationFuncs V with
    | none => Except.error (DecodeError.versionNotValid V)
    | some g => g source) = f source
  rw [hreg]

/-- Evaluation of `importAddress` when the version resolves but has no
registered import function. -/
lemma importAddress_not_registered (source : RawDoc) (V : Int)
    (hgv : getVersion source = .ok V)
    (hreg : addressDeserializationFuncs V = none) :
    importAddress source = .error (.versionNotValid V) := by
  unfold importAddress
  rw [hgv]
  show (match addressDeserializationFuncs V with
    | none => Except.error (DecodeError.versionNotValid V)
    | some g => g source) = .error (.versionNotValid V)
  rw [hreg]

/-- Evaluation of `importAddress` when the version tag extraction fails. -/
lemma importAddress_version_error (source : RawDoc) (e : Unit)
    (hgv : getVersion source = .error e) :
    importAddress source = .error .versionSchemaCheckFailed := by
  unfold importAddress
  rw [hgv]

/-- Version-1 import ignores an appended key outside the v1 field list. -/
lemma importAddressV1_append (source : RawDoc) (k : String) (w : RawValue)
    (hk : ∀ n ∈ addressV1Fields.fields, n ≠ k) :
    importAddressV1 (source ++ [(k, w)]) = importAddressV1 source := by
  unfold importAddressV1 coerce
  rw [coerceFields_append source addressV1Fields.defaults
    addressV1Fields.fields k w hk]

/-- Version-2 import ignores an appended key outside the v2 field list. -/
lemma importAddressV2_append (source : RawDoc) (k : String) (w : RawValue)
    (hk : ∀ n ∈ addressV2Fields.fields, n ≠ k) :
    importAddressV2 (source ++ [(k, w)]) = importAddressV2 source := by
  unfold importAddressV2 coerce
  rw [coerceFields_append source addressV2Fields.defaults
    addressV2Fields.fields k w hk]

/-- Version-3 import ignores an appended key outside the v3 field list. -/
lemma importAddressV3_append (source : RawDoc) (k : String) (w : RawValue)
    (hk : ∀ n ∈ addressV3Fields.fields, n ≠ k) :
    importAddressV3 (source ++ [(k, w)]) = importAddressV3 source := by
  unfold importAddressV3 coerce
  rw [coerceFields_append source addressV3Fields.defaults
    addressV3Fields.fields k w hk]

/-- C7: adding an extra key that is absent from the document and not part of
the dispatched version's field specification never makes a successful decode
fail, and the added value leaves the resulting record untouched (an older
strategy drops fields it does not know). -/
theorem importAddress_ignores_extra_key (source : RawDoc) (k : String)
    (w : RawValue) (a : address)
    (h : importAddress source = .ok a)
    (_hnew : lookupRaw source k = none)
    (hk : k ∉ fieldsForVersion a.Version) :
    importAddress (source ++ [(k, w)]) = .ok a := by
  cases hgv : getVersion source with
  | error e =>
      rw [importAddress_version_error source e hgv] at h
      cases h
  | ok V =>
      have hlv := getVersion_ok source V hgv
      have hgv2 : getVersion (source ++ [(k, w)]) = .ok V := by
        unfold getVersion
        rw [lookupRaw_append_of_some source k w "version" _ hlv]
      cases hreg : addressDeserializationFuncs V with
      | none =>
          rw [importAddress_not_registered source V hgv hreg] at h
          cases h
      | some importFunc =>
          rw [importAddress_dispatch source V importFunc hgv hreg] at h
          rw [importAddress_dispatch (source ++ [(k, w)]) V importFunc hgv2 hreg]
          unfold addressDeserializationFuncs at hreg
          by_cases h1 : V = 1
          · rw [if_pos h1] at hreg
            cases hreg
            rw [importAddressV1_version source a h] at hk
            have hfields : ∀ n ∈ addressV1Fields.fields, n ≠ k :=
              fun n hn hek => hk (show k ∈ fieldsForVersion 1 from hek ▸ hn)
            rw [importAddressV1_append source k w hfields]
            exact h
          · rw [if_neg h1] at hreg
            by_cases h2 : V = 2
            · rw [if_pos h2] at hreg
              cases hreg
              rw [importAddressV2_version source a h] at hk
              have hfields : ∀ n ∈ addressV2Fields.fields, n ≠ k :=
                fun n hn hek => hk (show k ∈ fieldsForVersion 2 from hek ▸ hn)
              rw [importAddressV2_append source k w hfields]
              exact h
            · rw [if_neg h2] at hreg
              by_cases h3 : V = 3
              · rw [if_pos h3] at hreg
                cases hreg
                rw [importAddressV3_version source a h] at hk
                have hfields : ∀ n ∈ addressV3Fields.fields, n ≠ k :=
                  fun n hn hek => hk (show k ∈ fieldsForVersion 3 from hek ▸ hn)
                rw [importAddressV3_append source k w hfields]
                exact h
              · rw [if_neg h3] at hreg
                cases hreg

/-- Witness for C7: a `cidr` key added to a version-1 document is dropped. -/
theorem importAddress_ignores_extra_key_witness :
    importAddress ([("version", RawValue.int 1), ("value", RawValue.str "a"),
        ("type", RawValue.str "b")] ++ [("cidr", RawValue.str "10.0.0.0/24")])
      = .ok (address.mk 1 "a" "b" "" "" "" "") :=
  importAddress_ignores_extra_key
    [("version", RawValue.int 1), ("value", RawValue.str "a"),
      ("type", RawValue.str "b")]
    "cidr" (RawValue.str "10.0.0.0/24") (address.mk 1 "a" "b" "" "" "" "")
    rfl rfl (by decide)

/-- Running the batch loop past an all-successful prefix continues into the
remainder with the index advanced by the prefix length. -/
lemma importAddressesFrom_append (j : Nat) (pre rest : List RawValue)
    (ds : List address) (h : importAddressesFrom j pre = .ok ds) :
    importAddressesFrom j (pre ++ rest)
      = (importAddressesFrom (j + pre.length) rest).map (fun l => ds ++ l) := by
  induction pre generalizing j ds with
  | nil =>
      simp only [importAddressesFrom] at h
      cases h
      simp only [List.nil_append, List.length_nil, Nat.add_zero]
      cases importAddressesFrom j rest <;> simp [Except.map]
  | cons v pre ih =>
      cases v with
      | map m =>
          simp only [importAddressesFrom, List.cons_append] at h ⊢
          cases him : importAddress m with
          | error e => rw [him] at h; cases h
          | ok a =>
              rw [him] at h
              cases hpre : importAddressesFrom (j + 1) pre with
              | error e => rw [hpre] at h; cases h
              | ok tail =>
                  rw [hpre] at h
                  cases h
                  simp only [List.append_eq]
                  rw [ih (j + 1) tail hpre]
                  have harith : j + 1 + pre.length = j + (pre.length + 1) := by
                    omega
                  rw [harith]
                  cases hres : importAddressesFrom (j + (pre.length + 1)) rest <;>
                    simp [Except.map, hres]
      | str s => simp [importAddressesFrom] at h
      | int n => simp [importAddressesFrom] at h
      | other => simp [importAddressesFrom] at h

/-- C1 counterexample: in `importAddresses [doc_ok, doc_bad, doc_ok2]` with
`doc_bad` a mapping whose single-document decode fails, the batch returns no
decoded records, yet the error is the traced cause alone — its message
carries no element index, contradicting "an error tagged with index 1". -/
theorem importAddresses_trace_carries_no_index :
    importAddresses
        [RawValue.map [("version", RawValue.int 1), ("value", RawValue.str "a"),
            ("type", RawValue.str "b")],
          RawValue.map [("version", RawValue.int 1), ("type", RawValue.str "b")],
          RawValue.map [("version", RawValue.int 1), ("value", RawValue.str "c"),
            ("type", RawValue.str "d")]]
      = .error (.traced (.schemaCheckFailed 1 (.fieldMissing "value"))) ∧
    BatchError.indexTag
        (.traced (.schemaCheckFailed 1 (.fieldMissing "value"))) = none :=
  ⟨rfl, rfl⟩

/-- C1 (amended): `importAddresses` processes elements in input order and
stops at the first failing element with no partial results; an element that
is not a mapping yields the error embedding its zero-based index, while an
element whose single-document decode fails yields the traced wrapped cause,
which carries no index. -/
theorem importAddresses_fail_fast (pre post : List RawValue)
    (decoded : List address) (m : RawDoc) (e : DecodeError) (v : RawValue)
    (hpre : importAddresses pre = .ok decoded)
    (hfail : importAddress m = .error e)
    (hv : ∀ s, v ≠ RawValue.map s) :
    importAddresses (pre ++ RawValue.map m :: post) = .error (.traced e) ∧
    importAddresses (pre ++ v :: post)
      = .error (.unexpectedValue pre.length) ∧
    BatchError.indexTag (.traced e) = none ∧
    BatchError.indexTag (.unexpectedValue pre.length) = some pre.length := by
  refine ⟨?_, ?_, rfl, rfl⟩
  · unfold importAddresses at hpre ⊢
    rw [importAddressesFrom_append 0 pre _ decoded hpre]
    simp [importAddressesFrom, hfail, Except.map]
  · unfold importAddresses at hpre ⊢
    rw [importAddressesFrom_append 0 pre _ decoded hpre]
    cases v with
    | map s => exact absurd rfl (hv s)
    | str _ => simp [importAddressesFrom, Except.map]
    | int n => simp [importAddressesFrom, Except.map]
    | other => simp [importAddressesFrom, Except.map]

/-- Witness for the amended C1: `[doc_ok, doc_bad, doc_ok2]` for the traced
mode, and a non-mapping element after one good document for the indexed
mode. -/
theorem importAddresses_fail_fast_witness :
    importAddresses
        ([RawValue.map [("version", RawValue.int 1), ("value", RawValue.str "a"),
            ("type", RawValue.str "b")]] ++
          RawValue.map [("version", RawValue.int 1), ("type", RawValue.str "b")] ::
            [RawValue.map [("version", RawValue.int 1), ("value", RawValue.str "c"),
              ("type", RawValue.str "d")]])
      = .error (.traced (.schemaCheckFailed 1 (.fieldMissing "value"))) ∧
    importAddresses
        ([RawValue.map [("version", RawValue.int 1), ("value", RawValue.str "a"),
            ("type", RawValue.str "b")]] ++
          RawValue.other ::
            [RawValue.map [("version", RawValue.int 1), ("value", RawValue.str "c"),
              ("type", RawValue.str "d")]])
      = .error (.unexpectedValue
          ([RawValue.map [("version", RawValue.int 1), ("value", RawValue.str "a"),
            ("type", RawValue.str "b")]] : List RawValue).length) ∧
    BatchError.indexTag (.traced (.schemaCheckFailed 1 (.fieldMissing "value")))
      = none ∧
    BatchError.indexTag
        (.unexpectedValue
          ([RawValue.map [("version", RawValue.int 1), ("value", RawValue.str "a"),
            ("type", RawValue.str "b")]] : List RawValue).length)
      = some ([RawValue.map [("version", RawValue.int 1),
          ("value", RawValue.str "a"), ("type", RawValue.str "b")]]
          : List RawValue).length :=
  importAddresses_fail_fast
    [RawValue.map [("version", RawValue.int 1), ("value", RawValue.str "a"),
      ("type", RawValue.str "b")]]
    [RawValue.map [("version", RawValue.int 1), ("value", RawValue.str "c"),
      ("type", RawValue.str "d")]]
    [address.mk 1 "a" "b" "" "" "" ""]
    [("version", RawValue.int 1), ("type", RawValue.str "b")]
    (.schemaCheckFailed 1 (.fieldMissing "value"))
    RawValue.other
    rfl rfl (fun s h => RawValue.noConfusion h)

/-- C10: direct construction preserves the supplied values verbatim — every
accessor of `newAddress args` returns the corresponding field of `args`. -/
theorem newAddress_preserves_args (args : AddressArgs) :
    (newAddress args).Value = args.Value ∧
    (newAddress args).Type' = args.Type' ∧
    (newAddress args).Scope = args.Scope ∧
    (newAddress args).Origin = args.Origin ∧
    (newAddress args).SpaceID = args.SpaceID ∧
    (newAddress args).CIDR = args.CIDR :=
  ⟨rfl, rfl, rfl, rfl, rfl, rfl⟩

end Description
